import Mathlib

/-!
Verification development for the OCR medical-report field-extraction engine
(`src/parsers/universal_parser.py`, `src/parsers/parth_parser.py`,
`src/parsers/grant_parser.py`, `src/parsers/arfa_parser.py`,
`src/parsers/__init__.py`).

The Python code is shallowly embedded: tokens are `String`s, token sequences
are `List String`, Python dicts are association lists with in-place
overwrite (`dinsert`), and every `while` loop is embedded as a
fuel-indexed structural recursion whose fuel bound is large enough that the
loop always exits through its own condition (each loop iteration advances
the cursor by at least one position; for the universal parser's main loop
this is proved below).  String primitives (`strip`, `lower`, `upper`,
substring containment, `split(sep, 1)`, `replace`, `float()` acceptance)
are reimplemented structurally over `List Char`, mirroring the CPython
semantics on the ASCII text this program processes.
-/

namespace Ocr

/-- ASCII whitespace accepted by Python's `str.strip()` / `float()`:
space, tab, newline, carriage return, vertical tab, form feed. -/
def isPySpace (c : Char) : Bool :=
  c = ' ' || c = '\t' || c = '\n' || c = '\r' || c = Char.ofNat 11 || c = Char.ofNat 12

/-- `str.strip()` on a character list. -/
def trimChars (l : List Char) : List Char :=
  ((l.dropWhile isPySpace).reverse.dropWhile isPySpace).reverse

/-- Python `str.strip()`. -/
def pyStrip (s : String) : String := ⟨trimChars s.data⟩

/-- Python `str.lower()` (ASCII case mapping; the report tokens are ASCII). -/
def pyLower (s : String) : String := ⟨s.data.map Char.toLower⟩

/-- Python `str.upper()` (ASCII case mapping). -/
def pyUpper (s : String) : String := ⟨s.data.map Char.toUpper⟩

/-- Does `pat` occur as a contiguous sublist of the character list?
(Python's `pat in s` substring test; the empty pattern always occurs.) -/
def isSubChars (pat : List Char) : List Char → Bool
  | [] => pat.isEmpty
  | a :: as => pat.isPrefixOf (a :: as) || isSubChars pat as

/-- Python `sub in s` substring containment. -/
def containsStr (s sub : String) : Bool := isSubChars sub.data s.data

/-- Python `s.startswith(pre)`. -/
def pyStartsWith (s pre : String) : Bool := pre.data.isPrefixOf s.data

/-- Split a character list at the first occurrence of `c`
(Python `s.split(c, 1)`); `none` when `c` does not occur. -/
def splitOnceChars (c : Char) : List Char → Option (List Char × List Char)
  | [] => none
  | a :: as =>
    if a = c then some ([], as)
    else
      match splitOnceChars c as with
      | some (l, r) => some (a :: l, r)
      | none => none

/-- One pass of Python `str.replace(pat, repl)` (all non-overlapping
occurrences, left to right), driven by fuel; each step consumes at least
one character, so fuel `l.length` is always enough. -/
def replaceChars (pat repl : List Char) : Nat → List Char → List Char
  | _, [] => []
  | 0, l => l
  | fuel + 1, a :: as =>
    if pat.isPrefixOf (a :: as) then
      repl ++ replaceChars pat repl fuel (List.drop pat.length (a :: as))
    else
      a :: replaceChars pat repl fuel as

/-- Python `s.replace(pat, repl)`; the sources never call it with an empty
pattern, which is mapped to the identity here. -/
def pyReplace (s pat repl : String) : String :=
  if pat.data.isEmpty then s
  else ⟨replaceChars pat.data repl.data s.data.length s.data⟩

/-- Consume a run `(digit | _ digit)*` continuing a digit group
(Python float literals allow single underscores between digits). -/
def digitRunCont : List Char → List Char
  | [] => []
  | c :: rest =>
    if c.isDigit then digitRunCont rest
    else if c = '_' then
      match rest with
      | d :: rest2 => if d.isDigit then digitRunCont rest2 else c :: rest
      | [] => c :: rest
    else c :: rest

/-- Consume a digit group `digit (digit | _ digit)*`; `none` when the list
does not start with a digit; otherwise the unconsumed remainder. -/
def digitRun : List Char → Option (List Char)
  | [] => none
  | c :: rest => if c.isDigit then some (digitRunCont rest) else none

/-- Consume the mantissa of a float literal: `digits [. [digits]]` or
`. digits`; `none` when no digit is present. -/
def floatMant (l : List Char) : Option (List Char) :=
  match digitRun l with
  | some rest =>
    match rest with
    | '.' :: rest2 =>
      match digitRun rest2 with
      | some rest3 => some rest3
      | none => some rest2
    | _ => some rest
  | none =>
    match l with
    | '.' :: rest2 => digitRun rest2
    | _ => none

/-- Drop one optional leading sign. -/
def dropSign : List Char → List Char
  | c :: rest => if c = '+' || c = '-' then rest else c :: rest
  | [] => []

/-- Does CPython's `float()` accept the string?  Leading/trailing
whitespace is stripped, then an optional sign followed by either
`inf`/`infinity`/`nan` (case-insensitive) or a decimal mantissa with an
optional exponent part. -/
def pyFloatValid (s : String) : Bool :=
  let l := dropSign (trimChars s.data)
  let low := l.map Char.toLower
  if low = "inf".data || low = "infinity".data || low = "nan".data then true
  else
    match floatMant l with
    | none => false
    | some [] => true
    | some (c :: rest) =>
      (c = 'e' || c = 'E') &&
        (match digitRun (dropSign rest) with
         | some [] => true
         | _ => false)

/-- The single-quote character, `chr(39)`. -/
def squoteChar : Char := Char.ofNat 39

/-- The one-character string containing a single quote. -/
def squote : String := ⟨[squoteChar]⟩

/-- The separator literals `[':', '.', '"', "'"]` skipped by the universal
parser's scan and by its value extraction. -/
def punctList : List String := [":", ".", "\"", squote]

/-- Python dict assignment `m[k] = v` on an insertion-ordered association
list: an existing key is overwritten in place, a new key is appended. -/
def dinsert {α : Type} : List (String × α) → String → α → List (String × α)
  | [], k, v => [(k, v)]
  | (k', v') :: rest, k, v =>
    if k' = k then (k, v) :: rest else (k', v') :: dinsert rest k v

/-- Python dict lookup `m.get(k)`. -/
def dget? {α : Type} : List (String × α) → String → Option α
  | [], _ => none
  | (k', v') :: rest, k => if k' = k then some v' else dget? rest k

/-- Python dict lookup with default. -/
def dgetD (m : List (String × String)) (k d : String) : String :=
  (dget? m k).getD d

/-! ## Field dictionaries (`universal_parser.py`, lines 11-77)

Python dicts preserve insertion order, which drives the first-match-wins
scans below, so each dictionary is an ordered list of
(canonical field name, keyword variants) pairs. -/

def COMMON_PATIENT_FIELDS : List (String × List String) :=
  [("patient_id", ["patient id", "patient no", "lab no", "result no", "phcr", "booking no"]),
   ("patient_name", ["name", "patient name", "user"]),
   ("age", ["age"]),
   ("gender", ["gender", "sex"]),
   ("age_gender", ["age/gender", "age/sex"]),
   ("collection_date", ["collection date", "sample collected", "received date"]),
   ("report_date", ["report date", "reporting date", "results saved", "release date"]),
   ("referring_doctor", ["referred by", "referring doctor", "consultant", "dr."]),
   ("phone", ["phone", "mobile", "phone no"]),
   ("specimen", ["specimen"]),
   ("ward_bed", ["ward", "bed"]),
   ("report_id", ["report id"]),
   ("passport_no", ["passport no"])]

/-- Iterating a Python dict yields its keys; `matches_field(text,
COMMON_PATIENT_FIELDS)` (as called on the whole dict in the lab-name and
morphology merge heuristics) therefore matches against these key strings. -/
def COMMON_PATIENT_FIELD_KEYS : List String := COMMON_PATIENT_FIELDS.map Prod.fst

def COMMON_LAB_FIELDS : List (String × List String) :=
  [("name", ["laboratory", "lab", "diagnostic", "pathology", "medical", "foundation", "clinic", "centre"]),
   ("address", ["address"]),
   ("phone", ["phone", "tel", "telephone"]),
   ("email", ["email", "@"]),
   ("website", ["www", "http", "https"]),
   ("phcr_number", ["phcr"])]

def COMMON_TEST_NAMES : List (String × List String) :=
  [("haemoglobin", ["haemoglobin", "hemoglobin", "hb", "hgb"]),
   ("wbc", ["wbc", "white blood cell", "total leucocyte count", "total w.b.c.", "total wbc", "leucocyte count"]),
   ("rbc", ["rbc", "red blood cell", "r.b.c.", "rbc count"]),
   ("platelet", ["platelet", "platelet count", "plt"]),
   ("neutrophils", ["neutrophils", "polymorphs", "neutrophil"]),
   ("lymphocytes", ["lymphocytes", "lymphocyte"]),
   ("eosinophils", ["eosinophils", "eosinophil"]),
   ("monocytes", ["monocytes", "monocyte"]),
   ("basophils", ["basophils", "basophil"]),
   ("absolute_neutrophils", ["absolute neutrophil", "absolute neutrophils"]),
   ("absolute_lymphocytes", ["absolute lymphocyte", "absolute lymphocytes"]),
   ("absolute_eosinophils", ["absolute eosinophil", "absolute eosinophils"]),
   ("absolute_monocytes", ["absolute monocyte", "absolute monocytes"]),
   ("absolute_basophils", ["absolute basophil", "absolute basophils"]),
   ("mcv", ["mcv", "m.c.v.", "mean cell volume"]),
   ("mch", ["mch", "m.c.h.", "mean cell hemoglobin"]),
   ("mchc", ["mchc", "m.c.h.c.", "mean cell hb conc", "mean cell hemoglobin concentration"]),
   ("hct", ["hct", "h.c.t.", "hematocrit", "haematocrit"]),
   ("rdw", ["rdw", "r.d.w.", "rdw-cv", "rdw-sd"]),
   ("mpv", ["mpv", "m.p.v.", "mean platelet volume"]),
   ("pct", ["pct", "plateletcrit"]),
   ("pdw", ["pdw"])]

/-- `COMMON_TEST_NAMES[key]` as used by the blood-index classification. -/
def testNamesFor (k : String) : List String := (dget? COMMON_TEST_NAMES k).getD []

def COMMON_MORPHOLOGY_FIELDS : List (String × List String) :=
  [("rbc_morphology", ["rbc morphology", "red cell morphology"]),
   ("platelets_on_smear", ["platelets on smear", "platelet on smear"]),
   ("wbc_morphology", ["wbc morphology", "white cell morphology"])]

def COMMON_FOOTER_FIELDS : List (String × List String) :=
  [("doctor_name", ["dr.", "doctor"]),
   ("qualification", ["mbbs", "md", "dcp", "phd"]),
   ("registration", ["registration", "reg no", "reg. no"]),
   ("lab_technician", ["lab technician", "technician"]),
   ("printed_by", ["printed by"]),
   ("printed_on", ["printed on"])]

/-! ## Token classifiers (`universal_parser.py`, lines 80-161) -/

/-- `normalize_text`: lower-case then strip (empty for falsy input). -/
def normalize_text (text : String) : String :=
  if text = "" then "" else pyStrip (pyLower text)

/-- `matches_field`: does the normalized text contain any keyword? -/
def matches_field (text : String) (field_keywords : List String) : Bool :=
  field_keywords.any (fun keyword => containsStr (normalize_text text) keyword)

/-- `is_test_name`: does the normalized text contain any keyword of any
entry of `COMMON_TEST_NAMES`? -/
def is_test_name (text : String) : Bool :=
  COMMON_TEST_NAMES.any (fun p =>
    p.2.any (fun keyword => containsStr (normalize_text text) keyword))

/-- `is_number`: strip the unit literals `g/dl`, `%`, `fl`, `pg`, then
succeed iff Python's `float()` accepts the remainder. -/
def is_number (text : String) : Bool :=
  if text = "" then false
  else
    pyFloatValid (pyStrip (pyReplace (pyReplace (pyReplace (pyReplace text "g/dl" "") "%" "") "fl" "") "pg" ""))

/-- Is the character one of the regex class `[\s-]`? -/
def isRangeSep (c : Char) : Bool := isPySpace c || c = '-'

/-- After at least one `[\s-]` separator: skip further separators and
require a digit. -/
def afterSeps : List Char → Bool
  | [] => false
  | c :: rest => if c.isDigit then true else if isRangeSep c then afterSeps rest else false

/-- At least one `[\s-]` separator followed (possibly after more
separators) by a digit. -/
def sepThenDigit : List Char → Bool
  | [] => false
  | c :: rest => isRangeSep c && afterSeps rest

/-- `re.search(r"\d+[\s-]+\d+", text)`: somewhere a digit is followed by a
nonempty run of whitespace/hyphens and then a digit. -/
def hasRangePat : List Char → Bool
  | [] => false
  | c :: rest => (c.isDigit && sepThenDigit rest) || hasRangePat rest

/-- `is_reference_range`: the regex pattern above, or (permissive
fallback) a hyphen together with at least one digit. -/
def is_reference_range (text : String) : Bool :=
  if text = "" then false
  else if hasRangePat text.data then true
  else text.data.contains '-' && text.data.any Char.isDigit

/-- Unit literals recognized by `is_unit`. -/
def unitLiterals : List String :=
  ["g/dl", "g/l", "%", "fl", "pg", "/ul", "/cumm", "/l", "million/ul",
   "x103", "x10^3", "cells/ul", "lakhs", "cmm", "mill/cumm"]

/-- `is_unit`: case-insensitive substring match against the unit list. -/
def is_unit (text : String) : Bool :=
  if text = "" then false
  else unitLiterals.any (fun unit => containsStr (normalize_text text) unit)

/-! ## Value extraction (`universal_parser.py`, lines 96-113) -/

/-- The lookahead of `extract_value_after_colon`: try positions
`start+k` for `k = 1, 2, 3` with `k < min 4 (length - start)`, returning
the first stripped token that is nonempty, is not a bare separator, and
does not start with a colon.  Fuel 3 covers the at most three probes. -/
def evacLookahead (texts : List String) (start : Nat) : Nat → Nat → Option String
  | 0, _ => none
  | fuel + 1, k =>
    if k < min 4 (texts.length - start) then
      if start + k < texts.length then
        let value := pyStrip (texts.getD (start + k) "")
        if value ≠ "" && !(punctList.contains value) && !(pyStartsWith value ":") then
          some value
        else evacLookahead texts start fuel (k + 1)
      else evacLookahead texts start fuel (k + 1)
    else none

/-- `extract_value_after_colon` (with its default `max_lookahead = 3`,
the only form the sources use): if the current token has a colon with a
nonempty suffix, return the stripped suffix, otherwise scan ahead. -/
def extract_value_after_colon (texts : List String) (start_idx : Nat) : Option String :=
  let fromColon : Option String :=
    if start_idx < texts.length then
      match splitOnceChars ':' (texts.getD start_idx "").data with
      | some (_, after) =>
        if pyStrip ⟨after⟩ ≠ "" then some (pyStrip ⟨after⟩) else none
      | none => none
    else none
  match fromColon with
  | some v => some v
  | none => evacLookahead texts start_idx 3 1

/-! ## The Parsed Report data model (`§3` of the spec; the dict literals
at `universal_parser.py` lines 261-269 and the three readers' lines 10-17)

A Test Result is the Python dict built by `parse_test_result` /
appended by the readers: an insertion-ordered association list.  The
three fixed-format readers build their result dict without an
`other_fields` key; that absent key is modelled as the empty mapping. -/

abbrev Entry := List (String × String)

/-- A raw `other_fields` value: a single string, promoted to a list when
the same raw key recurs. -/
inductive OtherVal : Type
  | single (s : String)
  | multi (l : List String)
deriving Repr, DecidableEq

structure Report where
  patient_info : List (String × String)
  laboratory_info : List (String × String)
  haematology_report : List Entry
  blood_indices : List Entry
  morphology : List (String × String)
  footer_info : List (String × String)
  other_fields : List (String × OtherVal)
deriving Repr, DecidableEq

/-- The freshly initialized Parsed Report with every collection empty. -/
def Report.empty : Report := ⟨[], [], [], [], [], [], []⟩

/-- The four-base-key Test Result dict literal shared by every append
site, in the key order the Python dicts are built. -/
def mkEntry (test_name observed_value unit reference_range : String) : Entry :=
  [("test_name", test_name), ("observed_value", observed_value),
   ("unit", unit), ("reference_range", reference_range)]

/-- `parsed_data["patient_info"][k] = v`. -/
def Report.setPatient (r : Report) (k v : String) : Report :=
  { r with patient_info := dinsert r.patient_info k v }

/-- `parsed_data["laboratory_info"][k] = v`. -/
def Report.setLab (r : Report) (k v : String) : Report :=
  { r with laboratory_info := dinsert r.laboratory_info k v }

/-- `parsed_data["morphology"][k] = v`. -/
def Report.setMorph (r : Report) (k v : String) : Report :=
  { r with morphology := dinsert r.morphology k v }

/-- `parsed_data["footer_info"][k] = v`. -/
def Report.setFooter (r : Report) (k v : String) : Report :=
  { r with footer_info := dinsert r.footer_info k v }

/-- `parsed_data["haematology_report"].append(e)`. -/
def Report.addHaem (r : Report) (e : Entry) : Report :=
  { r with haematology_report := r.haematology_report ++ [e] }

/-- `parsed_data["blood_indices"].append(e)`. -/
def Report.addBlood (r : Report) (e : Entry) : Report :=
  { r with blood_indices := r.blood_indices ++ [e] }

/-! ## Test-result recognizer (`universal_parser.py`, lines 164-253) -/

/-- The column-header literals rejected as test names
(`parse_test_result`, lines 173-175). -/
def resultHeaderTokens : List String :=
  ["TEST DESCRIPTION", "RESULT", "REF. RANGE", "UNIT",
   "Test Name", "Observed Value", "Reference Range",
   "Investigation", "Units", "Biological Reference Interval"]

/-- The section-header substrings rejected as test names
(`parse_test_result`, lines 179-181). -/
def resultSectionHeaders : List String :=
  ["HAEMATOLOGY", "BLOOD INDICES", "DIFFERENTIAL COUNT",
   "PLATELET COUNT", "RBC INDICES", "PLATELETS INDICES",
   "ABSOLUTE LEUCOCYTE COUNT", "COMPLETE BLOOD COUNT"]

/-- The lookahead loop of `parse_test_result` (lines 212-247): scan
positions `i < min (start+6) length` while value/unit/range are not all
found, filling each at most once, first matching class wins; a colon
token with a nonempty suffix after a found value breaks the scan.  The
cursor advances by exactly one per iteration, so the at most five
iterations fit in fuel 5. -/
def lookScan (texts : List String) (start : Nat) :
    Nat → Nat → Bool → Bool → Bool → Entry → Entry
  | 0, _, _, _, _, result => result
  | fuel + 1, i, found_value, found_unit, found_range, result =>
    if i < min (start + 6) texts.length && (!found_value || !found_unit || !found_range) then
      let current := pyStrip (texts.getD i "")
      if current = "" || punctList.contains current then
        lookScan texts start fuel (i + 1) found_value found_unit found_range result
      else if !found_value && is_number current && !(is_reference_range current) then
        lookScan texts start fuel (i + 1) true found_unit found_range
          (dinsert result "observed_value" current)
      else if !found_unit && is_unit current then
        lookScan texts start fuel (i + 1) found_value true found_range
          (dinsert result "unit" current)
      else if !found_range && is_reference_range current then
        lookScan texts start fuel (i + 1) found_value found_unit true
          (dinsert result "reference_range" current)
      else if found_value && containsStr current ":" then
        match splitOnceChars ':' current.data with
        | some (_, after) =>
          if pyStrip ⟨after⟩ ≠ "" then result
          else lookScan texts start fuel (i + 1) found_value found_unit found_range result
        | none => lookScan texts start fuel (i + 1) found_value found_unit found_range result
      else
        lookScan texts start fuel (i + 1) found_value found_unit found_range result
    else result

/-- The colon handling of `parse_test_result` (lines 199-208) applied
to the stripped name token: the (possibly split) local `test_name`, the
initial result dict, and the `found_value` flag. -/
def ptrInit (test_name0 : String) : String × Entry × Bool :=
  match splitOnceChars ':' test_name0.data with
  | some (before, after) =>
    if pyStrip ⟨after⟩ ≠ "" && (is_number (pyStrip ⟨after⟩) || pyStrip ⟨after⟩ ≠ "") then
      (pyStrip ⟨before⟩, mkEntry (pyStrip ⟨before⟩) (pyStrip ⟨after⟩) "" "", true)
    else
      (pyStrip ⟨before⟩, mkEntry test_name0 "" "" "", false)
  | none => (test_name0, mkEntry test_name0 "" "" "", false)

/-- The result dict after the unconditional
`result['test_name'] = test_name` (line 209) and the lookahead scan. -/
def ptrScan (texts : List String) (start_idx : Nat) (test_name0 : String) : Entry :=
  lookScan texts start_idx 5 (start_idx + 1) (ptrInit test_name0).2.2 false false
    (dinsert (ptrInit test_name0).2.1 "test_name" (ptrInit test_name0).1)

/-- `parse_test_result`: parse a test result starting at `start_idx`,
returning the dict with `test_name`, `observed_value`, `unit`,
`reference_range`, or `none`. -/
def parse_test_result (texts : List String) (start_idx : Nat) : Option Entry :=
  if start_idx ≥ texts.length then none
  else if pyStrip (texts.getD start_idx "") = "" ||
      resultHeaderTokens.contains (pyStrip (texts.getD start_idx "")) then none
  else if resultSectionHeaders.any
      (fun header => containsStr (pyUpper (pyStrip (texts.getD start_idx ""))) header) then none
  else if dgetD (ptrScan texts start_idx (pyStrip (texts.getD start_idx ""))) "test_name" "" ≠ "" &&
      (dgetD (ptrScan texts start_idx (pyStrip (texts.getD start_idx ""))) "observed_value" "" ≠ "" ||
        is_test_name (dgetD (ptrScan texts start_idx (pyStrip (texts.getD start_idx ""))) "test_name" "")) then
    some (ptrScan texts start_idx (pyStrip (texts.getD start_idx "")))
  else none

/-! ## Universal parser main scan (`universal_parser.py`, lines 256-447)

The loop body is one iteration of `while i < len(texts)`.  Python's
rule families are sequential `for`/`break` blocks with **no** `continue`
after the patient/lab/morphology/footer families, so after a family
matches, the remaining families still run against the same `text`
variable while the cursor `i` has already advanced; the embedding keeps
the original token (`text`) and the moving cursor separate, exactly as
the source does. -/

/-- Scan state of the main loop: section flags, current category, and
the report built so far. -/
structure UState where
  inHaem : Bool
  inBlood : Bool
  inMorph : Bool
  category : Option String
  report : Report
deriving Repr, DecidableEq

/-- The initial scan state. -/
def UState.init : UState := ⟨false, false, false, none, Report.empty⟩

/-- `if not text or text in [':', '.', '"', "'"]` (line 286). -/
def skippableTok (text : String) : Bool := text = "" || punctList.contains text

def haemMarkers : List String := ["HAEMATOLOGY", "HEMATOLOGY", "CBC", "COMPLETE BLOOD COUNT"]
def bloodMarkers : List String := ["BLOOD INDICES", "RBC INDICES", "PLATELETS INDICES"]
def diffMarkers : List String := ["DIFFERENTIAL COUNT", "DIFFERENTIAL LEUCOCYTE COUNT"]
def absMarkers : List String := ["ABSOLUTE LEUCOCYTE COUNT", "ABSOLUTE COUNT"]
def morphMarkers : List String := ["RBC MORPHOLOGY", "PLATELETS ON SMEAR", "MORPHOLOGY"]

/-- `any(x in text_upper for x in markers)`. -/
def sectionAnyIn (markers : List String) (text_upper : String) : Bool :=
  markers.any (fun x => containsStr text_upper x)

/-- Upper-cased column headers skipped after a haematology marker
(lines 299-302). -/
def columnHeaderUppers : List String :=
  ["TEST DESCRIPTION", "RESULT", "REF. RANGE", "UNIT",
   "TEST NAME", "OBSERVED VALUE", "REFERENCE RANGE",
   "INVESTIGATION", "UNITS", "BIOLOGICAL REFERENCE INTERVAL"]

/-- The header-skipping inner loop (lines 299-302): advance while the
upper-cased current token is a known column header.  Each iteration
advances by one, so fuel `texts.length` always suffices. -/
def skipColumnHeaders (texts : List String) : Nat → Nat → Nat
  | 0, i => i
  | fuel + 1, i =>
    if i < texts.length && columnHeaderUppers.contains (pyUpper (texts.getD i "")) then
      skipColumnHeaders texts fuel (i + 1)
    else i

/-- The patient-field `for`/`break` loop (lines 327-343): the `break`
fires only when a value was extracted, so the scan returns the first
field whose keywords match the token *and* for which
`extract_value_after_colon` yields a value. -/
def patientFieldScan (texts : List String) (text : String) (i : Nat) :
    List (String × List String) → Option (String × String)
  | [] => none
  | (field_name, keywords) :: rest =>
    if matches_field text keywords then
      match extract_value_after_colon texts i with
      | some value => some (field_name, value)
      | none => patientFieldScan texts text i rest
    else patientFieldScan texts text i rest

/-- Rule 2, the patient-info family: record the first matched field
(splitting `age_gender` values on "/"), advancing the cursor by 2. -/
def patientPhase (texts : List String) (text : String) (i : Nat) (rep : Report) :
    Nat × Report :=
  match patientFieldScan texts text i COMMON_PATIENT_FIELDS with
  | none => (i, rep)
  | some (field_name, value) =>
    if field_name = "age_gender" then
      if containsStr value "/" then
        match splitOnceChars '/' value.data with
        | some (before, after) =>
          let m := dinsert (dinsert rep.patient_info "age" (pyStrip ⟨before⟩)) "gender" (pyStrip ⟨after⟩)
          (i + 2, { rep with patient_info := m })
        | none => (i + 2, rep)
      else (i + 2, Report.setPatient rep field_name value)
    else (i + 2, Report.setPatient rep field_name value)

/-- The lab-field `for` loop breaks on the first keyword match
(lines 346-364), whether or not a value is found. -/
def labFieldScan (text : String) : List (String × List String) → Option String
  | [] => none
  | (field_name, keywords) :: rest =>
    if matches_field text keywords then some field_name else labFieldScan text rest

/-- Rule 3, the laboratory-info family: `name` joins the next token
into a two-token lab name unless the next token looks like a patient
field or contains `:`/`date`/`no`/`id`; other fields use value
extraction, advancing 2 with a value and 1 without. -/
def labPhase (texts : List String) (text : String) (i : Nat) (rep : Report) :
    Nat × Report :=
  match labFieldScan text COMMON_LAB_FIELDS with
  | none => (i, rep)
  | some field_name =>
    if field_name = "name" then
      let merged : Bool × String :=
        if i + 1 < texts.length &&
            !(matches_field (texts.getD (i + 1) "") COMMON_PATIENT_FIELD_KEYS) then
          let next_text := texts.getD (i + 1) ""
          if !((([":", "date", "no", "id"] : List String)).any
              (fun x => containsStr (pyLower next_text) x)) then
            (true, pyStrip (text ++ " " ++ next_text))
          else (false, text)
        else (false, text)
      ((if merged.1 then i + 2 else i + 1),
       Report.setLab rep "name" merged.2)
    else
      match extract_value_after_colon texts i with
      | some value =>
        (i + 2, Report.setLab rep field_name value)
      | none => (i + 1, rep)

/-- The morphology `for`/`break` loop (lines 403-415), breaking only
when a value was extracted (like the patient family). -/
def morphFieldScan (texts : List String) (text : String) (i : Nat) :
    List (String × List String) → Option (String × String)
  | [] => none
  | (field_name, keywords) :: rest =>
    if matches_field text keywords then
      match extract_value_after_colon texts i with
      | some value => some (field_name, value)
      | none => morphFieldScan texts text i rest
    else morphFieldScan texts text i rest

/-- Rule 5, the morphology family (only run when the morphology flag is
set): value extraction plus a continuation merge of `texts[i+2]` when
that token matches neither a patient key nor a test name. -/
def morphPhase (texts : List String) (text : String) (i : Nat) (rep : Report) :
    Nat × Report :=
  match morphFieldScan texts text i COMMON_MORPHOLOGY_FIELDS with
  | none => (i, rep)
  | some (field_name, value) =>
    if i + 2 < texts.length then
      if !(matches_field (texts.getD (i + 2) "") COMMON_PATIENT_FIELD_KEYS) &&
          !(is_test_name (texts.getD (i + 2) "")) then
        (i + 3, Report.setMorph rep field_name (pyStrip (value ++ " " ++ texts.getD (i + 2) "")))
      else (i + 2, Report.setMorph rep field_name value)
    else (i + 2, Report.setMorph rep field_name value)

/-- The footer `for` loop breaks on the first keyword match
(lines 418-428). -/
def footerFieldScan (text : String) : List (String × List String) → Option String
  | [] => none
  | (field_name, keywords) :: rest =>
    if matches_field text keywords then some field_name else footerFieldScan text rest

/-- Rule 6, the footer family: record the extracted value (advance 2),
or the matched token itself when no value is found (advance 1). -/
def footerPhase (texts : List String) (text : String) (i : Nat) (rep : Report) :
    Nat × Report :=
  match footerFieldScan text COMMON_FOOTER_FIELDS with
  | none => (i, rep)
  | some field_name =>
    match extract_value_after_colon texts i with
    | some value =>
      (i + 2, Report.setFooter rep field_name value)
    | none =>
      (i + 1, Report.setFooter rep field_name text)

/-- `other_fields` insertion with overwrite-to-list promotion
(lines 437-443). -/
def otherInsert (m : List (String × OtherVal)) (k : String) (v : String) :
    List (String × OtherVal) :=
  match dget? m k with
  | none => dinsert m k (OtherVal.single v)
  | some (OtherVal.single old) => dinsert m k (OtherVal.multi [old, v])
  | some (OtherVal.multi l) => dinsert m k (OtherVal.multi (l ++ [v]))

/-- Rule 7, the `other_fields` capture (lines 431-443): when the
original token contains a colon and the (already advanced) cursor is in
range, store the pre-colon key with the extracted value if the key has
more than two characters.  The cursor does not move here. -/
def otherPhase (texts : List String) (text : String) (i : Nat) (rep : Report) : Report :=
  if i < texts.length then
    if containsStr text ":" && i + 1 < texts.length then
      match splitOnceChars ':' text.data with
      | some (before, _) =>
        match extract_value_after_colon texts i with
        | some value =>
          if pyStrip ⟨before⟩ ≠ "" && (pyStrip ⟨before⟩).length > 2 then
            { rep with other_fields := otherInsert rep.other_fields (pyStrip ⟨before⟩) value }
          else rep
        | none => rep
      | none => rep
    else rep
  else rep

/-- The keyword lists whose match routes a test into `blood_indices`
(lines 372-379). -/
def indexKeywordLists : List (List String) :=
  [testNamesFor "mcv", testNamesFor "mch", testNamesFor "mchc", testNamesFor "hct",
   testNamesFor "rdw", testNamesFor "mpv", testNamesFor "pct", testNamesFor "pdw"]

/-- The fall-through region of the loop body (lines 327-445): patient
family, lab family, test-result recognition (with blood-index routing
and category attachment), morphology (flag-gated), footer, `other_fields`
capture, and the closing `i += 1`. -/
def uFall (texts : List String) (text : String) (i : Nat) (st : UState) : Nat × UState :=
  let p1 := patientPhase texts text i st.report
  let p2 := labPhase texts text p1.1 p1.2
  match parse_test_result texts p2.1 with
  | some test_result =>
    let test_name_lower := normalize_text (dgetD test_result "test_name" "")
    let is_blood_index :=
      indexKeywordLists.any (fun keywords =>
        keywords.any (fun keyword => containsStr test_name_lower keyword))
    let entry :=
      match st.category with
      | some c => dinsert test_result "category" c
      | none => test_result
    let rep' :=
      if is_blood_index || st.inBlood then
        Report.addBlood p2.2 (entry)
      else
        Report.addHaem p2.2 (entry)
    let advance :=
      1 + (if dgetD test_result "observed_value" "" ≠ "" then 1 else 0)
        + (if dgetD test_result "unit" "" ≠ "" then 1 else 0)
        + (if dgetD test_result "reference_range" "" ≠ "" then 1 else 0)
    (p2.1 + advance, { st with report := rep' })
  | none =>
    let p3 := if st.inMorph then morphPhase texts text p2.1 p2.2 else p2
    let p4 := footerPhase texts text p3.1 p3.2
    let rep5 := otherPhase texts text p4.1 p4.2
    (p4.1 + 1, { st with report := rep5 })

/-- One iteration of the main `while` loop (lines 283-445): skip blank
and separator tokens, then the five section-marker rules (rule 1), then
the fall-through region. -/
def uStep (texts : List String) (i : Nat) (st : UState) : Nat × UState :=
  let text := texts.getD i ""
  if skippableTok text then (i + 1, st)
  else
    let text_upper := pyUpper text
    if sectionAnyIn haemMarkers text_upper then
      (skipColumnHeaders texts texts.length (i + 1),
       { st with inHaem := true, inBlood := false })
    else if sectionAnyIn bloodMarkers text_upper then
      (i + 1, { st with inBlood := true, inHaem := false })
    else if sectionAnyIn diffMarkers text_upper then
      (i + 1, { st with category := some "Differential Count" })
    else if sectionAnyIn absMarkers text_upper then
      (i + 1, { st with category := some "Absolute Count" })
    else if sectionAnyIn morphMarkers text_upper then
      (i + 1, { st with inMorph := true })
    else uFall texts text i st

/-- The fuel-indexed main loop; `parse_universal_format` runs it with
fuel `texts.length`, which is adequate because every `uStep` strictly
increases the cursor (proved below). -/
def uLoop (texts : List String) : Nat → Nat → UState → Report
  | 0, _, st => st.report
  | fuel + 1, i, st =>
    if i < texts.length then
      let next := uStep texts i st
      uLoop texts fuel next.1 next.2
    else st.report

/-- `parse_universal_format`: the universal parser entry point
(lines 256-447), including the degenerate empty case (line 271) and the
`str(t).strip() if t else ""` token normalization (line 275). -/
def parse_universal_format (texts0 : List String) : Report :=
  if texts0 = [] then Report.empty
  else
    let texts := texts0.map (fun t => if t = "" then "" else pyStrip t)
    uLoop texts texts.length 0 UState.init

/-! ## PARTH format reader (`parth_parser.py`)

All loops advance the cursor by at least one per iteration and the
inner section loops never move it backwards, so fuel `texts.length`
lets every loop exit through its own condition. -/

/-- The date lookahead of the `Collection Date` / `Reporting Date`
branches (lines 34-44 and 48-58): probe `j` up to `bound = min (i+3)
length`; a token starting with `:` or containing a digit whose
colon-stripped form is nonempty is the date, and the cursor resumes at
`j + 1`.  `none` replays the `for`/`else` fall-through (`i += 1`). -/
def parthDateScan (texts : List String) (bound : Nat) : Nat → Nat → Option (String × Nat)
  | 0, _ => none
  | fuel + 1, j =>
    if j < bound then
      let next_text := texts.getD j ""
      if pyStartsWith next_text ":" || next_text.data.any Char.isDigit then
        let date_value := pyStrip (pyReplace next_text ":" "")
        if date_value ≠ "" then some (date_value, j + 1)
        else parthDateScan texts bound fuel (j + 1)
      else parthDateScan texts bound fuel (j + 1)
    else none

/-- Header skipping after `HAEMATOLOGY REPORT` (line 75). -/
def parthHeaderSkip (texts : List String) : Nat → Nat → Nat
  | 0, i => i
  | fuel + 1, i =>
    if i < texts.length &&
        (["Test Name", "Observed Value", "Unit", "Reference Range"] : List String).contains
          (texts.getD i "") then
      parthHeaderSkip texts fuel (i + 1)
    else i

/-- The haematology-section inner loop (lines 78-106). -/
def parthHaemLoop (texts : List String) : Nat → Nat → Report → Nat × Report
  | 0, i, rep => (i, rep)
  | fuel + 1, i, rep =>
    if i < texts.length then
      let test_text := texts.getD i ""
      if (["DIFFERENTIAL COUNT", "PLATELET COUNT", "BLOOD INDICES", "** End of Report"] :
          List String).any (fun header => containsStr test_text header) then (i, rep)
      else if pyStartsWith test_text ":" || test_text = "" ||
          (["Test Name", "Observed Value", "Unit", "Reference Range"] : List String).contains
            test_text then
        parthHaemLoop texts fuel (i + 1) rep
      else if i + 1 < texts.length && pyStartsWith (texts.getD (i + 1) "") ":" then
        let value_text := pyStrip (pyReplace (texts.getD (i + 1) "") ":" "")
        let unit0 := if i + 2 < texts.length then texts.getD (i + 2) "" else ""
        let ref0 := if i + 3 < texts.length then texts.getD (i + 3) "" else ""
        let ur : String × String :=
          if i + 2 < texts.length &&
              !((texts.getD (i + 2) "").data.any (fun c => c.isDigit || c = '-')) then
            ("", if i + 2 < texts.length then texts.getD (i + 2) "" else "")
          else (unit0, ref0)
        let rep' := Report.addHaem rep (mkEntry test_text value_text ur.1 ur.2)
        parthHaemLoop texts fuel (i + 4) rep'
      else parthHaemLoop texts fuel (i + 1) rep
    else (i, rep)

/-- The differential-count inner loop (lines 111-139), tagging entries
with `category = "Differential Count"` and fixing OCR-misread
`?olymorphs`. -/
def parthDiffLoop (texts : List String) : Nat → Nat → Report → Nat × Report
  | 0, i, rep => (i, rep)
  | fuel + 1, i, rep =>
    if i < texts.length then
      let test_text0 := texts.getD i ""
      if (["PLATELET COUNT", "BLOOD INDICES", "** End of Report"] : List String).any
          (fun header => containsStr test_text0 header) then (i, rep)
      else if pyStartsWith test_text0 ":" || test_text0 = "" then
        parthDiffLoop texts fuel (i + 1) rep
      else
        let test_text :=
          if containsStr test_text0 "?olymorphs" || containsStr (pyLower test_text0) "olymorphs" then
            "Polymorphs"
          else test_text0
        if i + 1 < texts.length && pyStartsWith (texts.getD (i + 1) "") ":" then
          let value_text := pyStrip (pyReplace (texts.getD (i + 1) "") ":" "")
          let unit := if i + 2 < texts.length then texts.getD (i + 2) "" else ""
          let ref_range := if i + 3 < texts.length then texts.getD (i + 3) "" else ""
          let rep' := Report.addHaem rep (mkEntry test_text value_text unit ref_range ++ [("category", "Differential Count")])
          parthDiffLoop texts fuel (i + 4) rep'
        else parthDiffLoop texts fuel (i + 1) rep
    else (i, rep)

/-- The blood-indices inner loop (lines 162-209). -/
def parthIndicesLoop (texts : List String) : Nat → Nat → Report → Nat × Report
  | 0, i, rep => (i, rep)
  | fuel + 1, i, rep =>
    if i < texts.length then
      let test_text := texts.getD i ""
      if (["RBC Morphology", "Platelets on Smear", "** End of Report"] : List String).any
          (fun header => containsStr test_text header) then (i, rep)
      else if pyStartsWith test_text ":" || test_text = "" then
        parthIndicesLoop texts fuel (i + 1) rep
      else if (["M.C.H.C.", "H.C.T.", "M.C.V.", "M.C.H.", "R.D.W.", "M.P.V.",
          "Plateletcrit (PCT)"] : List String).contains test_text then
        if i + 1 < texts.length then
          let next_text := texts.getD (i + 1) ""
          let value_text :=
            if pyStartsWith next_text ":" then pyStrip (pyReplace next_text ":" "")
            else pyStrip next_text
          let unit := if i + 2 < texts.length then texts.getD (i + 2) "" else ""
          let ref_range := if i + 3 < texts.length then texts.getD (i + 3) "" else ""
          let rep' := Report.addBlood rep (mkEntry test_text value_text unit ref_range)
          parthIndicesLoop texts fuel (i + 4) rep'
        else parthIndicesLoop texts fuel (i + 1) rep
      else if i + 1 < texts.length && pyStartsWith (texts.getD (i + 1) "") ":" then
        let value_text := pyStrip (pyReplace (texts.getD (i + 1) "") ":" "")
        let unit := if i + 2 < texts.length then texts.getD (i + 2) "" else ""
        let ref_range := if i + 3 < texts.length then texts.getD (i + 3) "" else ""
        let rep' := Report.addBlood rep (mkEntry test_text value_text unit ref_range)
        parthIndicesLoop texts fuel (i + 4) rep'
      else parthIndicesLoop texts fuel (i + 1) rep
    else (i, rep)

/-- The `qualification` part of the `Dr. ... Rajput` footer branch
(lines 230-231). -/
def parthRajputQual (texts : List String) (i : Nat) (rep : Report) : Report :=
  if i + 1 < texts.length then
    Report.setFooter rep "qualification" (texts.getD (i + 1) "")
  else rep

/-- The `registration` part of the `Dr. ... Rajput` footer branch
(lines 232-233). -/
def parthRajputReg (texts : List String) (i : Nat) (rep : Report) : Report :=
  if i + 2 < texts.length && containsStr (texts.getD (i + 2) "") "Registration" then
    Report.setFooter rep "registration" (texts.getD (i + 2) "")
  else rep

/-- The second half of one PARTH outer-loop iteration: the branches
from `PLATELET COUNT` (line 142) to the end of the chain. -/
def parthStepTail (texts : List String) (i : Nat) (rep : Report) : Nat × Report :=
  if containsStr (texts.getD i "") "PLATELET COUNT" then
    if i + 1 < texts.length && pyStartsWith (texts.getD (i + 1) "") ":" then
      (i + 3, Report.addHaem rep
        (mkEntry "PLATELET COUNT" (pyStrip (pyReplace (texts.getD (i + 1) "") ":" ""))
          (if i + 2 < texts.length then texts.getD (i + 2) "" else "")
          (if i + 3 < texts.length then texts.getD (i + 3) "" else "")))
    else (i + 1, rep)
  else if containsStr (texts.getD i "") "BLOOD INDICES" then
    parthIndicesLoop texts texts.length (i + 1) rep
  else if containsStr (texts.getD i "") "RBC Morphology" then
    if i + 1 < texts.length && pyStartsWith (texts.getD (i + 1) "") ":" then
      (i + 3, Report.setMorph rep "rbc_morphology"
        (pyStrip (pyStrip (pyReplace (texts.getD (i + 1) "") ":" "") ++ " " ++
          (if i + 2 < texts.length then texts.getD (i + 2) "" else ""))))
    else (i + 1, rep)
  else if containsStr (texts.getD i "") "Platelets on Smear" then
    if i + 1 < texts.length then
      (i + 2, Report.setMorph rep "platelets_on_smear" (texts.getD (i + 1) ""))
    else (i + 1, rep)
  else if containsStr (texts.getD i "") "Dr." && containsStr (texts.getD i "") "Rajput" then
    (i + 3, parthRajputReg texts i (parthRajputQual texts i
      (Report.setFooter rep "doctor_name" (texts.getD i ""))))
  else if containsStr (texts.getD i "") "Lab Technician" then
    (i + 1, Report.setFooter rep "lab_technician" (texts.getD i ""))
  else (i + 1, rep)

/-- One iteration of the PARTH reader's outer loop (lines 20-239),
taken at a position `i < len(texts)`: returns the next cursor position
and the updated report.  The branch chain continues in
`parthStepTail`. -/
def parthStep (texts : List String) (i : Nat) (rep : Report) : Nat × Report :=
  if containsStr (texts.getD i "") "Patient ID" && i + 1 < texts.length then
    (i + 2,
     if pyStartsWith (texts.getD (i + 1) "") ":" then
       Report.setPatient rep "patient_id" (pyStrip (pyReplace (texts.getD (i + 1) "") ":" ""))
     else rep)
  else if containsStr (texts.getD i "") "Collection Date" then
    match parthDateScan texts (min (i + 3) texts.length) 2 (i + 1) with
    | some (date_value, i') => (i', Report.setPatient rep "collection_date" date_value)
    | none => (i + 1, rep)
  else if containsStr (texts.getD i "") "Reporting Date" then
    match parthDateScan texts (min (i + 3) texts.length) 2 (i + 1) with
    | some (date_value, i') => (i', Report.setPatient rep "reporting_date" date_value)
    | none => (i + 1, rep)
  else if containsStr (texts.getD i "") "PATHOLOGY LABORATORY" then
    (i + 1, Report.setLab rep "name" "PARTH PATHOLOGY LABORATORY")
  else if containsStr (texts.getD i "") "Dr." && containsStr (texts.getD i "") "Hospital" then
    (i + 1, Report.setPatient rep "referring_doctor" (texts.getD i ""))
  else if containsStr (texts.getD i "") "HAEMATOLOGY REPORT" then
    parthHaemLoop texts texts.length (parthHeaderSkip texts texts.length (i + 1)) rep
  else if containsStr (texts.getD i "") "DIFFERENTIAL COUNT" then
    parthDiffLoop texts texts.length (i + 1) rep
  else parthStepTail texts i rep

/-- The fuel-indexed outer loop of the PARTH reader. -/
def parthLoop (texts : List String) : Nat → Nat → Report → Report
  | 0, _, rep => rep
  | fuel + 1, i, rep =>
    if i < texts.length then
      parthLoop texts fuel (parthStep texts i rep).1 (parthStep texts i rep).2
    else rep

/-- `parse_parth_format`: the PARTH PATHOLOGY LABORATORY reader. -/
def parse_parth_format (texts : List String) : Report :=
  parthLoop texts texts.length 0 Report.empty

/-! ## Grant Medical Foundation reader (`grant_parser.py`) -/

/-- Header skipping after the haematology marker (line 81). -/
def grantHeaderSkip (texts : List String) : Nat → Nat → Nat
  | 0, i => i
  | fuel + 1, i =>
    if i < texts.length &&
        (["Investigation", "Result", "Units", "Biological Reference Interval",
          "Haemogram Report"] : List String).contains (texts.getD i "") then
      grantHeaderSkip texts fuel (i + 1)
    else i

/-- The haematology inner loop (lines 85-144), with its local
differential-count flag and the mcv/mch/mchc/rdw/hct routing. -/
def grantHaemLoop (texts : List String) : Nat → Nat → Bool → Report → Nat × Report
  | 0, i, _, rep => (i, rep)
  | fuel + 1, i, in_differential_count, rep =>
    if i < texts.length then
      let test_text := texts.getD i ""
      if containsStr test_text "Printed By" || containsStr test_text "Printed On" then (i, rep)
      else if containsStr test_text "Differential Count" then
        grantHaemLoop texts fuel (i + 1) true rep
      else if containsStr test_text "Method :" || containsStr test_text "MethOd :" then
        grantHaemLoop texts fuel (i + 1) in_differential_count rep
      else if test_text = "" || test_text = ":" || pyStartsWith test_text ":" then
        grantHaemLoop texts fuel (i + 1) in_differential_count rep
      else if i + 1 < texts.length && pyStartsWith (texts.getD (i + 1) "") ":" then
        let test_name := test_text
        let value_text := pyStrip (pyReplace (texts.getD (i + 1) "") ":" "")
        let unit := if i + 2 < texts.length then pyStrip (texts.getD (i + 2) "") else ""
        let ref_range := if i + 3 < texts.length then pyStrip (texts.getD (i + 3) "") else ""
        let test_lower := pyLower test_name
        if (["mcv", "mch", "mchc", "rdw", "hct", "hematocrit"] : List String).any
            (fun x => containsStr test_lower x) then
          let rep' := Report.addBlood rep (mkEntry test_name value_text unit ref_range)
          grantHaemLoop texts fuel (i + 4) in_differential_count rep'
        else
          let test_entry :=
            if in_differential_count then
              mkEntry test_name value_text unit ref_range ++ [("category", "Differential Count")]
            else mkEntry test_name value_text unit ref_range
          let rep' := Report.addHaem rep (test_entry)
          grantHaemLoop texts fuel (i + 4) in_differential_count rep'
      else grantHaemLoop texts fuel (i + 1) in_differential_count rep
    else (i, rep)

/-- A patient key-value branch of the Grant reader: record the value
under `field` when nonempty, then advance 2. -/
def grantSetIfNonempty (rep : Report) (field value : String) : Report :=
  if value ≠ "" then Report.setPatient rep field value else rep

/-- The `printed_by` part of the `Printed By` footer branch
(lines 148-149). -/
def grantPrintedBy (texts : List String) (i : Nat) (rep : Report) : Report :=
  if i + 1 < texts.length then
    Report.setFooter rep "printed_by" (pyStrip (pyReplace (texts.getD (i + 1) "") ":" ""))
  else rep

/-- The `printed_on` part of the `Printed By` footer branch
(lines 150-152). -/
def grantPrintedOn (texts : List String) (i : Nat) (rep : Report) : Report :=
  if i + 2 < texts.length && containsStr (texts.getD (i + 2) "") "Printed On" then
    if i + 3 < texts.length then
      Report.setFooter rep "printed_on" (pyStrip (texts.getD (i + 3) ""))
    else rep
  else rep

/-- One iteration of the Grant reader's outer loop (lines 20-155). -/
def grantStep (texts : List String) (i : Nat) (rep : Report) : Nat × Report :=
  if containsStr (texts.getD i "") "Grant Medical Foundation" ||
      containsStr (texts.getD i "") "Grant Medical" then
    (i + 1, Report.setLab rep "name" "Grant Medical Foundation")
  else if containsStr (texts.getD i "") "Received Date" && i + 1 < texts.length then
    (i + 2, grantSetIfNonempty rep "received_date" (pyStrip (texts.getD (i + 1) "")))
  else if containsStr (texts.getD i "") "Report Date" && i + 1 < texts.length then
    (i + 2, grantSetIfNonempty rep "report_date" (pyStrip (texts.getD (i + 1) "")))
  else if containsStr (texts.getD i "") "Lab No/Result No" && i + 1 < texts.length then
    (i + 2, grantSetIfNonempty rep "lab_no" (pyStrip (texts.getD (i + 1) "")))
  else if containsStr (texts.getD i "") "Referred By Dr." && i + 1 < texts.length then
    (i + 2, grantSetIfNonempty rep "referring_doctor"
      (pyStrip (pyReplace (texts.getD (i + 1) "") ":" "")))
  else if containsStr (texts.getD i "") "Specimen" && i + 1 < texts.length then
    (i + 2, grantSetIfNonempty rep "specimen"
      (pyStrip (pyReplace (texts.getD (i + 1) "") ":" "")))
  else if containsStr (texts.getD i "") "Ward / Bed" && i + 1 < texts.length then
    (i + 2, grantSetIfNonempty rep "ward_bed"
      (pyStrip (pyReplace (texts.getD (i + 1) "") ":" "")))
  else if containsStr (texts.getD i "") "DEPARTMENT OF LABORATORY MEDICINE-HAEMATOLOGY" ||
      containsStr (texts.getD i "") "HAEMATOLOGY" then
    grantHaemLoop texts texts.length (grantHeaderSkip texts texts.length (i + 1)) false rep
  else if containsStr (texts.getD i "") "Printed By" then
    (i + 4, grantPrintedOn texts i (grantPrintedBy texts i rep))
  else (i + 1, rep)

/-- The fuel-indexed outer loop of the Grant reader. -/
def grantLoop (texts : List String) : Nat → Nat → Report → Report
  | 0, _, rep => rep
  | fuel + 1, i, rep =>
    if i < texts.length then
      grantLoop texts fuel (grantStep texts i rep).1 (grantStep texts i rep).2
    else rep

/-- `parse_grant_format`: the Grant Medical Foundation reader. -/
def parse_grant_format (texts : List String) : Report :=
  grantLoop texts texts.length 0 Report.empty

/-! ## ARFA DIAGNOSTIC CENTRE reader (`arfa_parser.py`) -/

/-- Test names recognized in the ARFA haematology section
(lines 123-129). -/
def arfaTestNames : List String :=
  ["Hemoglobin (HB)", "Hematocrit (HCT)", "Red Blood Cell (RBC)",
   "Mean Cell Volume (MCV)", "Mean Cell Hemoglobin (MCH)",
   "Mean Cell Hb Conc (MCHC)", "White Blood Cell (WBC/TLC)",
   "Neutrophils", "Lymphocytes", "Monocytes", "Eosinophil", "Basophils",
   "Platelets Count"]

/-- Unit substrings checked by the ARFA lookahead (lines 161 and 169/175
use `/` in place of `/ul`, `/l`). -/
def arfaUnitSubsA : List String := ["g/dl", "%", "fl", "pg", "*10", "/ul", "/l"]
def arfaUnitSubsB : List String := ["g/dl", "%", "fl", "pg", "*10", "/"]

/-- The ARFA value/unit/range lookahead (lines 142-185): scan `j` up to
`min (i+6) length`, skipping gender-qualified ranges, classifying each
token as range, unit, or plain value (with a post-value unit/range grab),
and breaking once a value is found.  Returns the resumption cursor and
the collected value, unit, and range. -/
def arfaLook (texts : List String) (i : Nat) :
    Nat → Nat → Bool → String → String → String → Nat × String × String × String
  | 0, j, _, value, unit, ref_range => (j, value, unit, ref_range)
  | fuel + 1, j, found_range, value, unit, ref_range =>
    if j < min (i + 6) texts.length then
      let next_text := texts.getD j ""
      if containsStr next_text "Female:" || containsStr next_text "Male:" then
        arfaLook texts i fuel (j + 1) found_range value unit ref_range
      else if next_text.data.contains '-' && next_text.data.any Char.isDigit && !found_range then
        arfaLook texts i fuel (j + 1) true value unit (pyStrip next_text)
      else if arfaUnitSubsA.any (fun x => containsStr next_text x) && unit = "" then
        arfaLook texts i fuel (j + 1) found_range value (pyStrip next_text) ref_range
      else if next_text.data.any Char.isDigit && value = "" then
        if !(next_text.data.contains '-') &&
            !(arfaUnitSubsB.any (fun x => containsStr next_text x)) then
          let value' := pyStrip next_text
          let j1 := j + 1
          let uj : String × Nat :=
            if j1 < texts.length && unit = "" then
              let potential_unit := texts.getD j1 ""
              if arfaUnitSubsB.any (fun x => containsStr potential_unit x) then
                (pyStrip potential_unit, j1 + 1)
              else (unit, j1)
            else (unit, j1)
          let rj : String × Nat :=
            if uj.2 < texts.length && ref_range = "" then
              let potential_range := texts.getD uj.2 ""
              if potential_range.data.contains '-' && potential_range.data.any Char.isDigit then
                (pyStrip potential_range, uj.2 + 1)
              else (ref_range, uj.2)
            else (ref_range, uj.2)
          (rj.2, value', uj.1, rj.1)
        else arfaLook texts i fuel (j + 1) found_range value unit ref_range
      else arfaLook texts i fuel (j + 1) found_range value unit ref_range
    else (j, value, unit, ref_range)

/-- Header skipping after the ARFA haematology marker (line 105). -/
def arfaHeaderSkip (texts : List String) : Nat → Nat → Nat
  | 0, i => i
  | fuel + 1, i =>
    if i < texts.length &&
        (["Test", "Normal Range", "Unit", "Result", "CBC With ESR"] : List String).contains
          (texts.getD i "") then
      arfaHeaderSkip texts fuel (i + 1)
    else i

/-- The ARFA haematology-section inner loop (lines 110-206). -/
def arfaHaemLoop (texts : List String) : Nat → Nat → Report → Nat × Report
  | 0, i, rep => (i, rep)
  | fuel + 1, i, rep =>
    if i < texts.length then
      let test_text := texts.getD i ""
      if containsStr test_text "Electronically Generated" ||
          (containsStr test_text "Dr." && 50 < i) || containsStr test_text "www." then (i, rep)
      else if test_text = "" || pyStrip test_text = "" then
        arfaHaemLoop texts fuel (i + 1) rep
      else if arfaTestNames.any (fun tn => containsStr test_text tn) then
        let r := arfaLook texts i 5 (i + 1) false "" "" ""
        let test_lower := pyLower test_text
        if (["mcv", "mch", "mchc", "hct", "hematocrit", "mean cell"] : List String).any
            (fun x => containsStr test_lower x) then
          let rep' := Report.addBlood rep (mkEntry test_text r.2.1 r.2.2.1 r.2.2.2)
          arfaHaemLoop texts fuel r.1 rep'
        else
          let rep' := Report.addHaem rep (mkEntry test_text r.2.1 r.2.2.1 r.2.2.2)
          arfaHaemLoop texts fuel r.1 rep'
      else arfaHaemLoop texts fuel (i + 1) rep
    else (i, rep)

/-- The key-value branches of the ARFA outer loop, in source order
(lines 30-99): marker substring, canonical field, and whether the value
goes to `laboratory_info` (only `PHCR #:`) rather than `patient_info`.
Each Python branch is `if marker in text and i + 1 < len(texts): record;
i += 2; continue`; the `i + 1 < len` conjunct is shared by all of them. -/
def arfaKVBranches : List (String × String × Bool) :=
  [("User:", "user", false),
   ("PHCR #:", "phcr_number", true),
   ("Booking No.:", "booking_no", false),
   ("Patient No.:", "patient_no", false),
   ("Patient Name:", "patient_name", false),
   ("Sample Collected:", "sample_collected", false),
   ("Age/Sex:", "age_sex", false),
   ("Test Booked:", "test_booked", false),
   ("Results Saved:", "results_saved", false),
   ("Mobile:", "mobile", false),
   ("Collection Point:", "collection_point", false),
   ("Consultant:", "consultant", false)]

/-- Find the first ARFA key-value branch whose marker occurs in the
token (the Python `if`/`continue` chain tests them in this order). -/
def arfaKVScan (text : String) : List (String × String × Bool) → Option (String × Bool)
  | [] => none
  | (marker, field, intoLab) :: rest =>
    if containsStr text marker then some (field, intoLab) else arfaKVScan text rest

/-- One iteration of the ARFA reader's outer loop (lines 20-215). -/
def arfaStep (texts : List String) (i : Nat) (rep : Report) : Nat × Report :=
  if containsStr (texts.getD i "") "ARFA DIAGNOSTIC CENTRE" ||
      containsStr (texts.getD i "") "ARFA" then
    (i + 1, Report.setLab rep "name" "ARFA DIAGNOSTIC CENTRE")
  else
    match (if i + 1 < texts.length then arfaKVScan (texts.getD i "") arfaKVBranches else none) with
    | some (field, intoLab) =>
      (i + 2,
       if intoLab then Report.setLab rep field (pyStrip (texts.getD (i + 1) ""))
       else Report.setPatient rep field (pyStrip (texts.getD (i + 1) "")))
    | none =>
      if containsStr (texts.getD i "") "HAEMATOLOGY" then
        arfaHaemLoop texts texts.length (arfaHeaderSkip texts texts.length (i + 1)) rep
      else if containsStr (texts.getD i "") "Dr." && i + 1 < texts.length then
        (i + 1,
         if dget? rep.footer_info "doctor_name" = none then
           Report.setFooter rep "doctor_name" (texts.getD i "")
         else rep)
      else (i + 1, rep)

/-- The fuel-indexed outer loop of the ARFA reader. -/
def arfaLoop (texts : List String) : Nat → Nat → Report → Report
  | 0, _, rep => rep
  | fuel + 1, i, rep =>
    if i < texts.length then
      arfaLoop texts fuel (arfaStep texts i rep).1 (arfaStep texts i rep).2
    else rep

/-- `parse_arfa_format`: the ARFA DIAGNOSTIC CENTRE reader. -/
def parse_arfa_format (texts : List String) : Report :=
  arfaLoop texts texts.length 0 Report.empty

/-! ## Format detection and dispatch (`parsers/__init__.py`) -/

/-- Python `" ".join(l)`. -/
def joinSpace : List String → String
  | [] => ""
  | [s] => s
  | s :: rest => s ++ " " ++ joinSpace rest

/-- `detect_report_format` (lines 11-27): upper-case the first 50 tokens
joined by spaces and test the format-identifying literals in fixed
priority order. -/
def detect_report_format (texts : List String) : String :=
  if texts = [] then "unknown"
  else
    let text_str := pyUpper (joinSpace (texts.take 50))
    if containsStr text_str "PARTH PATHOLOGY" || containsStr text_str "PARTH" then "parth"
    else if containsStr text_str "GRANT MEDICAL" || containsStr text_str "GRANT" then "grant"
    else if containsStr text_str "ARFA DIAGNOSTIC" || containsStr text_str "ARFA" then "arfa"
    else "unknown"

/-- The token normalization of `parse_medical_report` (line 47): drop
falsy and whitespace-only tokens, strip the rest. -/
def cleanTexts (rec_texts : List String) : List String :=
  (rec_texts.filter (fun t => t ≠ "" && pyStrip t ≠ "")).map pyStrip

/-- The validation test of `parse_medical_report` (lines 58/68/78):
Python truthiness of `haematology_report`, `blood_indices`,
`patient_info`, in that order. -/
def hasSomeData (result : Report) : Bool :=
  !result.haematology_report.isEmpty || !result.blood_indices.isEmpty ||
    !result.patient_info.isEmpty

/-- `parse_medical_report` (`parsers/__init__.py`, lines 30-86): detect
the format, run the matching reader, and fall back to the universal
parser when the reader yields no usable data.  The readers contain no
unguarded operation (every index access is bounds-checked), so the
`except` path of the Python `try` is unreachable and the embedding is a
total function. -/
def parse_medical_report (rec_texts : List String) : Report :=
  if rec_texts = [] then Report.empty
  else if detect_report_format (cleanTexts rec_texts) = "parth" then
    if hasSomeData (parse_parth_format (cleanTexts rec_texts)) then
      parse_parth_format (cleanTexts rec_texts)
    else parse_universal_format (cleanTexts rec_texts)
  else if detect_report_format (cleanTexts rec_texts) = "grant" then
    if hasSomeData (parse_grant_format (cleanTexts rec_texts)) then
      parse_grant_format (cleanTexts rec_texts)
    else parse_universal_format (cleanTexts rec_texts)
  else if detect_report_format (cleanTexts rec_texts) = "arfa" then
    if hasSomeData (parse_arfa_format (cleanTexts rec_texts)) then
      parse_arfa_format (cleanTexts rec_texts)
    else parse_universal_format (cleanTexts rec_texts)
  else parse_universal_format (cleanTexts rec_texts)

/-! # Theorems -/

/-- **C2.**  For the empty (and, through the same `if not texts` guard,
the null) input token sequence, `parse_universal_format` returns a
Parsed Report in which `patient_info`, `laboratory_info`, `morphology`,
`footer_info` and `other_fields` are empty mappings and
`haematology_report` and `blood_indices` are empty sequences; being a
total function, the embedding also certifies that no exception is
raised. -/
theorem C2_universal_empty_input :
    (parse_universal_format []).patient_info = [] ∧
    (parse_universal_format []).laboratory_info = [] ∧
    (parse_universal_format []).morphology = [] ∧
    (parse_universal_format []).footer_info = [] ∧
    (parse_universal_format []).other_fields = [] ∧
    (parse_universal_format []).haematology_report = [] ∧
    (parse_universal_format []).blood_indices = [] := by
  decide

/-- **C9.**  `is_reference_range` accepts `"13-17"`, `"4.5 - 6.0"` and
`"4000-11000"`, and rejects `"13.5"`. -/
theorem C9_reference_range_detection :
    is_reference_range "13-17" = true ∧
    is_reference_range "4.5 - 6.0" = true ∧
    is_reference_range "4000-11000" = true ∧
    is_reference_range "13.5" = false := by
  decide

/-- **C7.**  For `["MCV", ":10.5", "fl", "80-96"]` the universal parser
routes the resulting test entry into `blood_indices` (the lowercased
name matches the index-keyword set) and appends nothing to
`haematology_report`. -/
theorem C7_mcv_routed_to_blood_indices :
    (parse_universal_format ["MCV", ":10.5", "fl", "80-96"]).blood_indices =
      [mkEntry "MCV" "" "fl" "80-96"] ∧
    (parse_universal_format ["MCV", ":10.5", "fl", "80-96"]).haematology_report = [] := by
  decide

/-- **C4, counterexample.**  The entry the claim promises — with
`observed_value = "13.5"` — is *not* produced for
`["Haemoglobin", ": 13.5", "g/dl", "13-17"]`: the value token
`": 13.5"` fails `is_number` (the colon survives the unit stripping), so
no rule ever extracts `"13.5"`. -/
theorem C4_counterexample :
    mkEntry "Haemoglobin" "13.5" "g/dl" "13-17" ∉
      (parse_universal_format ["Haemoglobin", ": 13.5", "g/dl", "13-17"]).haematology_report := by
  decide

/-- **C4, amended.**  For `["Haemoglobin", ": 13.5", "g/dl", "13-17"]`
the universal parser produces exactly one haematology entry
`{test_name: "Haemoglobin", observed_value: "", unit: "g/dl",
reference_range: "13-17"}`: the unit and range tokens are classified,
but the `": 13.5"` token matches none of the value/unit/range
classifiers, so the observed value stays the empty-string default. -/
theorem C4_amended_haemoglobin_entry :
    (parse_universal_format ["Haemoglobin", ": 13.5", "g/dl", "13-17"]).haematology_report =
      [mkEntry "Haemoglobin" "" "g/dl" "13-17"] := by
  decide

/-- **C5, counterexample.**  For `["Patient ID", ": P12345"]` the
universal parser does *not* set `patient_info.patient_id` to
`"P12345"`: the keyword token itself has no colon, and the lookahead of
`extract_value_after_colon` skips any token that starts with `":"`, so
the value token `": P12345"` is never split. -/
theorem C5_counterexample :
    ¬ dget? (parse_universal_format ["Patient ID", ": P12345"]).patient_info "patient_id" =
        some "P12345" := by
  decide

/-- **C5, amended.**  For `["Patient ID", ": P12345"]` the universal
parser records nothing at all: the colon-splitting of
`extract_value_after_colon` applies only to a colon embedded in the
keyword token, and its lookahead rejects tokens starting with `":"`, so
the whole parse returns the empty report. -/
theorem C5_amended_patient_id_not_extracted :
    parse_universal_format ["Patient ID", ": P12345"] = Report.empty := by
  decide

/-- **C6 (code bug).**  Evaluation of the code at the failing input
`["Age/Sex", "34/M"]`: the parser stores the *combined* string under
`age` and never writes `gender`.  The `age_gender` split branch of
`universal_parser.py` (lines 332-339) is unreachable for its own
keywords, because every token containing `"age/sex"` or `"age/gender"`
also contains `"age"`, and the `age` field is consulted first in
`COMMON_PATIENT_FIELDS` order, breaking the scan before `age_gender` is
reached. -/
theorem C6_code_eval_age_sex :
    (parse_universal_format ["Age/Sex", "34/M"]).patient_info = [("age", "34/M")] := by
  decide

/-- The emptiness condition of the fallback contract: `patient_info`,
`haematology_report` and `blood_indices` all empty. -/
def readerEmpty (r : Report) : Bool :=
  r.patient_info.isEmpty && r.haematology_report.isEmpty && r.blood_indices.isEmpty

lemma hasSomeData_false_of_readerEmpty (r : Report) (h : readerEmpty r = true) :
    hasSomeData r = false := by
  unfold readerEmpty at h
  unfold hasSomeData
  simp only [Bool.and_eq_true] at h
  rcases h with ⟨⟨h1, h2⟩, h3⟩
  simp [h1, h2, h3]

/-- **C1.**  For every token sequence classified as a known format, if
the format-specific reader returns a Parsed Report whose
`patient_info`, `haematology_report` and `blood_indices` are all empty,
then `parse_medical_report` discards that result and returns the result
of re-parsing the same (cleaned) sequence with the Universal Parser.
(The readers bounds-check every index access, so the `except` branch of
the Python `try` is dead; the raise case of the claim is vacuous.) -/
theorem C1_known_format_empty_reader_falls_back (rec_texts : List String)
    (h : (detect_report_format (cleanTexts rec_texts) = "parth" ∧
            readerEmpty (parse_parth_format (cleanTexts rec_texts)) = true) ∨
         (detect_report_format (cleanTexts rec_texts) = "grant" ∧
            readerEmpty (parse_grant_format (cleanTexts rec_texts)) = true) ∨
         (detect_report_format (cleanTexts rec_texts) = "arfa" ∧
            readerEmpty (parse_arfa_format (cleanTexts rec_texts)) = true)) :
    parse_medical_report rec_texts = parse_universal_format (cleanTexts rec_texts) := by
  have hrec : rec_texts ≠ [] := by
    rintro rfl
    rcases h with ⟨hd, _⟩ | ⟨hd, _⟩ | ⟨hd, _⟩ <;> exact absurd hd (by decide)
  rcases h with ⟨hd, he⟩ | ⟨hd, he⟩ | ⟨hd, he⟩ <;>
    simp [parse_medical_report, hrec, hd, hasSomeData_false_of_readerEmpty _ he]

/-- Witness for C1: `["PARTH"]` is classified as the PARTH format, its
reader extracts nothing, and the dispatcher falls back to the Universal
Parser. -/
theorem C1_witness :
    (detect_report_format (cleanTexts ["PARTH"]) = "parth" ∧
     readerEmpty (parse_parth_format (cleanTexts ["PARTH"])) = true) ∧
    parse_medical_report ["PARTH"] = parse_universal_format (cleanTexts ["PARTH"]) :=
  ⟨⟨by decide, by decide⟩,
   C1_known_format_empty_reader_falls_back ["PARTH"] (Or.inl ⟨by decide, by decide⟩)⟩

/-! ## Cursor monotonicity of the universal parser's main scan (C10) -/

lemma patientPhase_fst_ge (texts : List String) (text : String) (i : Nat) (rep : Report) :
    i ≤ (patientPhase texts text i rep).1 := by
  unfold patientPhase
  rcases patientFieldScan texts text i COMMON_PATIENT_FIELDS with _ | ⟨f, v⟩
  · simp
  · dsimp only
    split
    · split
      · rcases splitOnceChars '/' v.data with _ | ⟨b, a⟩ <;> simp
      · simp
    · simp

lemma labPhase_fst_ge (texts : List String) (text : String) (i : Nat) (rep : Report) :
    i ≤ (labPhase texts text i rep).1 := by
  unfold labPhase
  rcases labFieldScan text COMMON_LAB_FIELDS with _ | f
  · simp
  · dsimp only
    split
    · repeat' split
      all_goals omega
    · rcases extract_value_after_colon texts i with _ | v <;> simp

lemma morphPhase_fst_ge (texts : List String) (text : String) (i : Nat) (rep : Report) :
    i ≤ (morphPhase texts text i rep).1 := by
  unfold morphPhase
  rcases morphFieldScan texts text i COMMON_MORPHOLOGY_FIELDS with _ | ⟨f, v⟩
  · simp
  · dsimp only
    split
    · split <;> simp
    · simp

lemma footerPhase_fst_ge (texts : List String) (text : String) (i : Nat) (rep : Report) :
    i ≤ (footerPhase texts text i rep).1 := by
  unfold footerPhase
  rcases footerFieldScan text COMMON_FOOTER_FIELDS with _ | f
  · simp
  · dsimp only
    rcases extract_value_after_colon texts i with _ | v <;> simp

lemma skipColumnHeaders_ge (texts : List String) :
    ∀ fuel j, j ≤ skipColumnHeaders texts fuel j := by
  intro fuel
  induction fuel with
  | zero => intro j; simp [skipColumnHeaders]
  | succ n ih =>
    intro j
    unfold skipColumnHeaders
    split
    · exact le_trans (Nat.le_succ j) (ih (j + 1))
    · exact le_refl j

lemma uFall_fst_gt (texts : List String) (text : String) (i : Nat) (st : UState) :
    i < (uFall texts text i st).1 := by
  have h1 := patientPhase_fst_ge texts text i st.report
  have h2 := labPhase_fst_ge texts text (patientPhase texts text i st.report).1
    (patientPhase texts text i st.report).2
  simp only [uFall]
  rcases hpt : parse_test_result texts
      (labPhase texts text (patientPhase texts text i st.report).1
        (patientPhase texts text i st.report).2).1 with _ | tr <;>
    simp only [hpt]
  · have h3 := morphPhase_fst_ge texts text
      (labPhase texts text (patientPhase texts text i st.report).1
        (patientPhase texts text i st.report).2).1
      (labPhase texts text (patientPhase texts text i st.report).1
        (patientPhase texts text i st.report).2).2
    cases hm : st.inMorph <;> simp only [hm, if_true, if_false, Bool.false_eq_true]
    · have h4 := footerPhase_fst_ge texts text
        (labPhase texts text (patientPhase texts text i st.report).1
          (patientPhase texts text i st.report).2).1
        (labPhase texts text (patientPhase texts text i st.report).1
          (patientPhase texts text i st.report).2).2
      omega
    · have h4 := footerPhase_fst_ge texts text
        (morphPhase texts text
          (labPhase texts text (patientPhase texts text i st.report).1
            (patientPhase texts text i st.report).2).1
          (labPhase texts text (patientPhase texts text i st.report).1
            (patientPhase texts text i st.report).2).2).1
        (morphPhase texts text
          (labPhase texts text (patientPhase texts text i st.report).1
            (patientPhase texts text i st.report).2).1
          (labPhase texts text (patientPhase texts text i st.report).1
            (patientPhase texts text i st.report).2).2).2
      omega
  · omega

lemma uStep_fst_gt (texts : List String) (i : Nat) (st : UState) :
    i < (uStep texts i st).1 := by
  simp only [uStep]
  split
  · exact Nat.lt_succ_self i
  · split
    · exact lt_of_lt_of_le (Nat.lt_succ_self i) (skipColumnHeaders_ge texts texts.length (i + 1))
    · split
      · exact Nat.lt_succ_self i
      · split
        · exact Nat.lt_succ_self i
        · split
          · exact Nat.lt_succ_self i
          · split
            · exact Nat.lt_succ_self i
            · exact uFall_fst_gt texts (texts.getD i "") i st

lemma uLoop_fuel_min (texts : List String) :
    ∀ n fuel i st, texts.length - i ≤ n → texts.length - i ≤ fuel →
      uLoop texts fuel i st = uLoop texts (texts.length - i) i st := by
  intro n
  induction n with
  | zero =>
    intro fuel i st hn hf
    have hi : ¬ i < texts.length := by omega
    have h0 : texts.length - i = 0 := by omega
    rw [h0]
    cases fuel with
    | zero => rfl
    | succ f =>
      show (if i < texts.length then _ else st.report) = st.report
      rw [if_neg hi]
  | succ n ih =>
    intro fuel i st hn hf
    by_cases hi : i < texts.length
    · have hm : texts.length - i = (texts.length - i - 1) + 1 := by omega
      obtain ⟨f, rfl⟩ : ∃ f, fuel = f + 1 := ⟨fuel - 1, by omega⟩
      rw [hm]
      show (if i < texts.length then
              uLoop texts f (uStep texts i st).1 (uStep texts i st).2 else st.report) =
           (if i < texts.length then
              uLoop texts (texts.length - i - 1) (uStep texts i st).1 (uStep texts i st).2
            else st.report)
      rw [if_pos hi, if_pos hi]
      have hgt := uStep_fst_gt texts i st
      rw [ih f (uStep texts i st).1 (uStep texts i st).2 (by omega) (by omega),
          ih (texts.length - i - 1) (uStep texts i st).1 (uStep texts i st).2 (by omega) (by omega)]
    · have h0 : texts.length - i = 0 := by omega
      rw [h0]
      cases fuel with
      | zero => rfl
      | succ f =>
        show (if i < texts.length then _ else st.report) = st.report
        rw [if_neg hi]

/-- **C10.**  The universal parser's scan terminates on every finite
token list: every iteration of the main loop strictly increases the
cursor (`uStep`), the inner header-skipping loop never moves it
backwards, and consequently running the main loop with fuel
`texts.length - i` — at most length-many iterations — already reaches
the fixed point: any larger fuel computes the same report. -/
theorem C10_scan_terminates (texts : List String) (i : Nat) (st : UState) :
    i < (uStep texts i st).1 ∧
    (∀ j, j ≤ skipColumnHeaders texts texts.length j) ∧
    (∀ fuel, texts.length - i ≤ fuel →
      uLoop texts fuel i st = uLoop texts (texts.length - i) i st) :=
  ⟨uStep_fst_gt texts i st, skipColumnHeaders_ge texts texts.length,
   fun fuel hf => uLoop_fuel_min texts (texts.length - i) fuel i st (le_refl _) hf⟩

/-! ## Rule priority in the main scan (C3) -/

@[simp] lemma setPatient_patient (r : Report) (k v : String) :
    (Report.setPatient r k v).patient_info = dinsert r.patient_info k v := rfl

@[simp] lemma setLab_patient (r : Report) (k v : String) :
    (Report.setLab r k v).patient_info = r.patient_info := rfl

@[simp] lemma setMorph_patient (r : Report) (k v : String) :
    (Report.setMorph r k v).patient_info = r.patient_info := rfl

@[simp] lemma setFooter_patient (r : Report) (k v : String) :
    (Report.setFooter r k v).patient_info = r.patient_info := rfl

@[simp] lemma addHaem_patient (r : Report) (e : Entry) :
    (Report.addHaem r e).patient_info = r.patient_info := rfl

@[simp] lemma addBlood_patient (r : Report) (e : Entry) :
    (Report.addBlood r e).patient_info = r.patient_info := rfl

/-- The lab family never writes `patient_info`. -/
lemma labPhase_patient (texts : List String) (text : String) (i : Nat) (rep : Report) :
    (labPhase texts text i rep).2.patient_info = rep.patient_info := by
  unfold labPhase
  repeat' split
  all_goals simp

/-- The morphology family never writes `patient_info`. -/
lemma morphPhase_patient (texts : List String) (text : String) (i : Nat) (rep : Report) :
    (morphPhase texts text i rep).2.patient_info = rep.patient_info := by
  unfold morphPhase
  repeat' split
  all_goals rfl

/-- The footer family never writes `patient_info`. -/
lemma footerPhase_patient (texts : List String) (text : String) (i : Nat) (rep : Report) :
    (footerPhase texts text i rep).2.patient_info = rep.patient_info := by
  unfold footerPhase
  repeat' split
  all_goals simp

/-- The `other_fields` capture never writes `patient_info`. -/
lemma otherPhase_patient (texts : List String) (text : String) (i : Nat) (rep : Report) :
    (otherPhase texts text i rep).patient_info = rep.patient_info := by
  unfold otherPhase
  repeat' split
  all_goals rfl

/-- **C3, amended.**  When the scan is in the fall-through region (the
token is not skippable and matches no section marker) and the patient
family matches with an extracted value for a field other than the
`age_gender` special case, the step records exactly that first matching
field in `patient_info` — but the later rule families still run in the
same iteration against the same token (with the cursor already advanced
by 2) and may additionally record laboratory, footer, or `other_fields`
entries; only `patient_info` itself receives exactly the one
first-match write. -/
theorem C3_first_patient_match_recorded (texts : List String) (i : Nat) (st : UState)
    (f v : String)
    (hskip : skippableTok (texts.getD i "") = false)
    (h1 : sectionAnyIn haemMarkers (pyUpper (texts.getD i "")) = false)
    (h2 : sectionAnyIn bloodMarkers (pyUpper (texts.getD i "")) = false)
    (h3 : sectionAnyIn diffMarkers (pyUpper (texts.getD i "")) = false)
    (h4 : sectionAnyIn absMarkers (pyUpper (texts.getD i "")) = false)
    (h5 : sectionAnyIn morphMarkers (pyUpper (texts.getD i "")) = false)
    (hscan : patientFieldScan texts (texts.getD i "") i COMMON_PATIENT_FIELDS = some (f, v))
    (hf : f ≠ "age_gender") :
    (uStep texts i st).2.report.patient_info = dinsert st.report.patient_info f v := by
  have hpp : patientPhase texts (texts.getD i "") i st.report =
      (i + 2, Report.setPatient st.report f v) := by
    unfold patientPhase
    rw [hscan]
    simp [hf, Report.setPatient]
  simp only [uStep, hskip, h1, h2, h3, h4, h5, Bool.false_eq_true, if_false]
  simp only [uFall, hpp]
  rcases hpt : parse_test_result texts
      (labPhase texts (texts.getD i "") (i + 2, Report.setPatient st.report f v).1
        (i + 2, Report.setPatient st.report f v).2).1 with _ | tr <;>
    simp only [hpt]
  · cases hm : st.inMorph <;>
      simp [hm, otherPhase_patient, footerPhase_patient, morphPhase_patient, labPhase_patient]
  · split <;> simp [labPhase_patient]

/-- **C3, counterexample.**  The claim as stated — a successful
patient-field match (rule 2) prevents the same token from also being
recorded as a laboratory, footer, or `other_fields` entry in that
iteration — is false: for `["Phone", "111", "222", "333"]` at position
0, the token `"Phone"` matches the patient `phone` field (value
`"111"`), yet the lab family, which has no `continue` guarding it, also
matches `"Phone"` and records `laboratory_info.phone = "333"` (a value
extracted at the already-advanced cursor). -/
theorem C3_counterexample :
    ¬ (∀ (texts : List String) (i : Nat) (st : UState) (f v : String),
        skippableTok (texts.getD i "") = false →
        sectionAnyIn haemMarkers (pyUpper (texts.getD i "")) = false →
        sectionAnyIn bloodMarkers (pyUpper (texts.getD i "")) = false →
        sectionAnyIn diffMarkers (pyUpper (texts.getD i "")) = false →
        sectionAnyIn absMarkers (pyUpper (texts.getD i "")) = false →
        sectionAnyIn morphMarkers (pyUpper (texts.getD i "")) = false →
        patientFieldScan texts (texts.getD i "") i COMMON_PATIENT_FIELDS = some (f, v) →
        (uStep texts i st).2.report.laboratory_info = st.report.laboratory_info ∧
        (uStep texts i st).2.report.footer_info = st.report.footer_info ∧
        (uStep texts i st).2.report.other_fields = st.report.other_fields) := by
  intro h
  have h0 := h ["Phone", "111", "222", "333"] 0 UState.init "phone" "111"
    (by decide) (by decide) (by decide) (by decide) (by decide) (by decide) (by decide)
  have hlab : (uStep ["Phone", "111", "222", "333"] 0 UState.init).2.report.laboratory_info =
      [("phone", "333")] := by decide
  have hcontra := h0.1
  rw [hlab] at hcontra
  exact absurd hcontra (by decide)

/-- Witness for the amended C3 at `["Phone", "111"]`, position 0: the
step records `patient_info.phone = "111"`. -/
theorem C3_witness :
    (uStep ["Phone", "111"] 0 UState.init).2.report.patient_info = [("phone", "111")] := by
  have h := C3_first_patient_match_recorded ["Phone", "111"] 0 UState.init "phone" "111"
    (by decide) (by decide) (by decide) (by decide) (by decide) (by decide) (by decide)
    (by decide)
  exact h.trans (by decide)

/-- Witness for C10 at the concrete list `["x"]`: the first step leaves
position 0, the header skipper does not retreat, and fuel 7 computes the
same report as the minimal fuel 1. -/
theorem C10_witness :
    0 < (uStep ["x"] 0 UState.init).1 ∧
    (1 : Nat) ≤ skipColumnHeaders ["x"] 1 1 ∧
    uLoop ["x"] 7 0 UState.init = uLoop ["x"] 1 0 UState.init := by
  refine ⟨(C10_scan_terminates ["x"] 0 UState.init).1,
    (C10_scan_terminates ["x"] 0 UState.init).2.1 1, ?_⟩
  have h := (C10_scan_terminates ["x"] 0 UState.init).2.2 7 (by decide)
  simpa using h

/-! ## The four-base-key invariant of Test Results (C8) -/

/-- Does the entry carry all four base keys of a Test Result? -/
def entryHasBaseKeys (e : Entry) : Bool :=
  (dget? e "test_name").isSome && (dget? e "observed_value").isSome &&
    (dget? e "unit").isSome && (dget? e "reference_range").isSome

/-- Every entry of both test-result collections carries all four base
keys. -/
def reportKeysOk (r : Report) : Bool :=
  r.haematology_report.all entryHasBaseKeys && r.blood_indices.all entryHasBaseKeys

lemma dget?_dinsert {α : Type} (m : List (String × α)) (k k' : String) (v : α) :
    dget? (dinsert m k v) k' = if k = k' then some v else dget? m k' := by
  induction m with
  | nil => simp [dinsert, dget?]
  | cons p rest ih =>
    obtain ⟨k0, v0⟩ := p
    by_cases h0 : k0 = k <;> by_cases h1 : k0 = k' <;> by_cases h2 : k = k' <;>
      simp_all [dinsert, dget?]

lemma entryHasBaseKeys_dinsert (e : Entry) (k v : String)
    (h : entryHasBaseKeys e = true) : entryHasBaseKeys (dinsert e k v) = true := by
  unfold entryHasBaseKeys at h ⊢
  simp only [Bool.and_eq_true] at h ⊢
  obtain ⟨⟨⟨h1, h2⟩, h3⟩, h4⟩ := h
  refine ⟨⟨⟨?_, ?_⟩, ?_⟩, ?_⟩ <;>
  · rw [dget?_dinsert]
    split <;> simp_all

lemma entryHasBaseKeys_mkEntry (n v u r : String) :
    entryHasBaseKeys (mkEntry n v u r) = true := rfl

lemma entryHasBaseKeys_mkEntry_cat (n v u r c : String) :
    entryHasBaseKeys (mkEntry n v u r ++ [("category", c)]) = true := rfl

lemma addHaem_keysOk (r : Report) (e : Entry) (he : entryHasBaseKeys e = true)
    (hr : reportKeysOk r = true) : reportKeysOk (Report.addHaem r e) = true := by
  unfold reportKeysOk at hr ⊢
  simp only [Bool.and_eq_true] at hr
  simp [Report.addHaem, List.all_append, hr.1, hr.2, he]

lemma addBlood_keysOk (r : Report) (e : Entry) (he : entryHasBaseKeys e = true)
    (hr : reportKeysOk r = true) : reportKeysOk (Report.addBlood r e) = true := by
  unfold reportKeysOk at hr ⊢
  simp only [Bool.and_eq_true] at hr
  simp [Report.addBlood, List.all_append, hr.1, hr.2, he]

set_option maxHeartbeats 1000000 in
lemma lookScan_baseKeys (texts : List String) (start : Nat) :
    ∀ fuel i fv fu fr (r : Entry), entryHasBaseKeys r = true →
      entryHasBaseKeys (lookScan texts start fuel i fv fu fr r) = true := by
  intro fuel
  induction fuel with
  | zero => intro i fv fu fr r h; exact h
  | succ n ih =>
    intro i fv fu fr r h
    simp only [lookScan]
    repeat' split
    all_goals first
      | exact h
      | exact ih _ _ _ _ _ h
      | exact ih _ _ _ _ _ (entryHasBaseKeys_dinsert _ _ _ h)

lemma ptrInit_baseKeys (t : String) : entryHasBaseKeys (ptrInit t).2.1 = true := by
  unfold ptrInit
  repeat' split
  all_goals rfl

lemma ptrScan_baseKeys (texts : List String) (s : Nat) (t : String) :
    entryHasBaseKeys (ptrScan texts s t) = true :=
  lookScan_baseKeys texts s 5 (s + 1) (ptrInit t).2.2 false false _
    (entryHasBaseKeys_dinsert _ _ _ (ptrInit_baseKeys t))

lemma parse_test_result_baseKeys (texts : List String) (s : Nat) (e : Entry)
    (h : parse_test_result texts s = some e) : entryHasBaseKeys e = true := by
  unfold parse_test_result at h
  repeat' split at h
  all_goals try exact Option.noConfusion h
  obtain rfl := Option.some.inj h
  exact ptrScan_baseKeys texts s _

/-- None of the non-test rule families touches the two test-result
collections. -/
lemma patientPhase_keysOk (texts : List String) (text : String) (i : Nat) (rep : Report) :
    reportKeysOk (patientPhase texts text i rep).2 = reportKeysOk rep := by
  unfold patientPhase
  repeat' split
  all_goals rfl

lemma labPhase_keysOk (texts : List String) (text : String) (i : Nat) (rep : Report) :
    reportKeysOk (labPhase texts text i rep).2 = reportKeysOk rep := by
  unfold labPhase
  repeat' split
  all_goals rfl

lemma morphPhase_keysOk (texts : List String) (text : String) (i : Nat) (rep : Report) :
    reportKeysOk (morphPhase texts text i rep).2 = reportKeysOk rep := by
  unfold morphPhase
  repeat' split
  all_goals rfl

lemma footerPhase_keysOk (texts : List String) (text : String) (i : Nat) (rep : Report) :
    reportKeysOk (footerPhase texts text i rep).2 = reportKeysOk rep := by
  unfold footerPhase
  repeat' split
  all_goals rfl

lemma otherPhase_keysOk (texts : List String) (text : String) (i : Nat) (rep : Report) :
    reportKeysOk (otherPhase texts text i rep) = reportKeysOk rep := by
  unfold otherPhase
  repeat' split
  all_goals rfl

lemma uFall_keysOk (texts : List String) (text : String) (i : Nat) (st : UState)
    (h : reportKeysOk st.report = true) :
    reportKeysOk (uFall texts text i st).2.report = true := by
  have hfall : reportKeysOk (labPhase texts text (patientPhase texts text i st.report).1
      (patientPhase texts text i st.report).2).2 = true := by
    rw [labPhase_keysOk, patientPhase_keysOk]
    exact h
  simp only [uFall]
  rcases hpt : parse_test_result texts
      (labPhase texts text (patientPhase texts text i st.report).1
        (patientPhase texts text i st.report).2).1 with _ | tr <;>
    simp only [hpt]
  · cases hm : st.inMorph <;> simp only [hm, if_true, if_false, Bool.false_eq_true]
    · rw [otherPhase_keysOk, footerPhase_keysOk]
      exact hfall
    · rw [otherPhase_keysOk, footerPhase_keysOk, morphPhase_keysOk]
      exact hfall
  · have htr := parse_test_result_baseKeys texts _ tr hpt
    have hentry : entryHasBaseKeys
        (match st.category with
         | some c => dinsert tr "category" c
         | none => tr) = true := by
      cases st.category with
      | none => exact htr
      | some c => exact entryHasBaseKeys_dinsert _ _ _ htr
    split
    · exact addBlood_keysOk _ _ hentry hfall
    · exact addHaem_keysOk _ _ hentry hfall

lemma uStep_keysOk (texts : List String) (i : Nat) (st : UState)
    (h : reportKeysOk st.report = true) :
    reportKeysOk (uStep texts i st).2.report = true := by
  simp only [uStep]
  split
  · exact h
  · split
    · exact h
    · split
      · exact h
      · split
        · exact h
        · split
          · exact h
          · split
            · exact h
            · exact uFall_keysOk texts _ i st h

lemma uLoop_keysOk (texts : List String) :
    ∀ fuel i st, reportKeysOk st.report = true →
      reportKeysOk (uLoop texts fuel i st) = true := by
  intro fuel
  induction fuel with
  | zero => intro i st h; exact h
  | succ n ih =>
    intro i st h
    unfold uLoop
    split
    · exact ih _ _ (uStep_keysOk texts i st h)
    · exact h

lemma parse_universal_format_keysOk (texts : List String) :
    reportKeysOk (parse_universal_format texts) = true := by
  unfold parse_universal_format
  split
  · rfl
  · exact uLoop_keysOk _ _ _ _ rfl

@[simp] lemma setPatient_keysOk (r : Report) (k v : String) :
    reportKeysOk (Report.setPatient r k v) = reportKeysOk r := rfl

@[simp] lemma setLab_keysOk (r : Report) (k v : String) :
    reportKeysOk (Report.setLab r k v) = reportKeysOk r := rfl

@[simp] lemma setMorph_keysOk (r : Report) (k v : String) :
    reportKeysOk (Report.setMorph r k v) = reportKeysOk r := rfl

@[simp] lemma setFooter_keysOk (r : Report) (k v : String) :
    reportKeysOk (Report.setFooter r k v) = reportKeysOk r := rfl

lemma parthHaemLoop_keysOk (texts : List String) :
    ∀ fuel i rep, reportKeysOk rep = true →
      reportKeysOk (parthHaemLoop texts fuel i rep).2 = true := by
  intro fuel
  induction fuel with
  | zero => intro i rep h; exact h
  | succ n ih =>
    intro i rep h
    simp only [parthHaemLoop]
    repeat' split
    all_goals first
      | exact h
      | exact ih _ _ h
      | exact ih _ _ (addHaem_keysOk _ _ (entryHasBaseKeys_mkEntry _ _ _ _) h)

lemma parthDiffLoop_keysOk (texts : List String) :
    ∀ fuel i rep, reportKeysOk rep = true →
      reportKeysOk (parthDiffLoop texts fuel i rep).2 = true := by
  intro fuel
  induction fuel with
  | zero => intro i rep h; exact h
  | succ n ih =>
    intro i rep h
    simp only [parthDiffLoop]
    repeat' split
    all_goals first
      | exact h
      | exact ih _ _ h
      | exact ih _ _ (addHaem_keysOk _ _ (entryHasBaseKeys_mkEntry_cat _ _ _ _ _) h)

lemma parthIndicesLoop_keysOk (texts : List String) :
    ∀ fuel i rep, reportKeysOk rep = true →
      reportKeysOk (parthIndicesLoop texts fuel i rep).2 = true := by
  intro fuel
  induction fuel with
  | zero => intro i rep h; exact h
  | succ n ih =>
    intro i rep h
    simp only [parthIndicesLoop]
    repeat' split
    all_goals first
      | exact h
      | exact ih _ _ h
      | exact ih _ _ (addBlood_keysOk _ _ (entryHasBaseKeys_mkEntry _ _ _ _) h)

lemma parthRajputQual_keysOk (texts : List String) (i : Nat) (rep : Report) :
    reportKeysOk (parthRajputQual texts i rep) = reportKeysOk rep := by
  unfold parthRajputQual
  split <;> rfl

lemma parthRajputReg_keysOk (texts : List String) (i : Nat) (rep : Report) :
    reportKeysOk (parthRajputReg texts i rep) = reportKeysOk rep := by
  unfold parthRajputReg
  split <;> rfl

set_option maxHeartbeats 1000000 in
lemma parthStepTail_keysOk (texts : List String) (i : Nat) (rep : Report)
    (h : reportKeysOk rep = true) : reportKeysOk (parthStepTail texts i rep).2 = true := by
  unfold parthStepTail
  repeat' split
  all_goals first
    | exact h
    | exact parthIndicesLoop_keysOk texts _ _ _ h
    | exact addHaem_keysOk _ _ (entryHasBaseKeys_mkEntry _ _ _ _) h
    | (simp only [parthRajputReg_keysOk, parthRajputQual_keysOk, setFooter_keysOk]; exact h)

set_option maxHeartbeats 1000000 in
lemma parthStep_keysOk (texts : List String) (i : Nat) (rep : Report)
    (h : reportKeysOk rep = true) : reportKeysOk (parthStep texts i rep).2 = true := by
  unfold parthStep
  repeat' split
  all_goals first
    | exact h
    | exact parthHaemLoop_keysOk texts _ _ _ h
    | exact parthDiffLoop_keysOk texts _ _ _ h
    | exact parthStepTail_keysOk texts i rep h

lemma parthLoop_keysOk (texts : List String) :
    ∀ fuel i rep, reportKeysOk rep = true →
      reportKeysOk (parthLoop texts fuel i rep) = true := by
  intro fuel
  induction fuel with
  | zero => intro i rep h; exact h
  | succ n ih =>
    intro i rep h
    unfold parthLoop
    split
    · exact ih _ _ (parthStep_keysOk texts i rep h)
    · exact h

lemma grantHaemLoop_keysOk (texts : List String) :
    ∀ fuel i b rep, reportKeysOk rep = true →
      reportKeysOk (grantHaemLoop texts fuel i b rep).2 = true := by
  intro fuel
  induction fuel with
  | zero => intro i b rep h; exact h
  | succ n ih =>
    intro i b rep h
    simp only [grantHaemLoop]
    repeat' split
    all_goals first
      | exact h
      | exact ih _ _ _ h
      | exact ih _ _ _ (addBlood_keysOk _ _ (entryHasBaseKeys_mkEntry _ _ _ _) h)
      | exact ih _ _ _ (addHaem_keysOk _ _ (entryHasBaseKeys_mkEntry _ _ _ _) h)
      | exact ih _ _ _ (addHaem_keysOk _ _ (entryHasBaseKeys_mkEntry_cat _ _ _ _ _) h)

lemma grantSetIfNonempty_keysOk (rep : Report) (field value : String) :
    reportKeysOk (grantSetIfNonempty rep field value) = reportKeysOk rep := by
  unfold grantSetIfNonempty
  split <;> rfl

lemma grantPrintedBy_keysOk (texts : List String) (i : Nat) (rep : Report) :
    reportKeysOk (grantPrintedBy texts i rep) = reportKeysOk rep := by
  unfold grantPrintedBy
  split <;> rfl

lemma grantPrintedOn_keysOk (texts : List String) (i : Nat) (rep : Report) :
    reportKeysOk (grantPrintedOn texts i rep) = reportKeysOk rep := by
  unfold grantPrintedOn
  repeat' split
  all_goals rfl

set_option maxHeartbeats 1000000 in
lemma grantStep_keysOk (texts : List String) (i : Nat) (rep : Report)
    (h : reportKeysOk rep = true) : reportKeysOk (grantStep texts i rep).2 = true := by
  unfold grantStep
  repeat' split
  all_goals first
    | exact h
    | exact grantHaemLoop_keysOk texts _ _ _ _ h
    | (simp only [grantSetIfNonempty_keysOk]; exact h)
    | (simp only [grantPrintedOn_keysOk, grantPrintedBy_keysOk]; exact h)

lemma grantLoop_keysOk (texts : List String) :
    ∀ fuel i rep, reportKeysOk rep = true →
      reportKeysOk (grantLoop texts fuel i rep) = true := by
  intro fuel
  induction fuel with
  | zero => intro i rep h; exact h
  | succ n ih =>
    intro i rep h
    unfold grantLoop
    split
    · exact ih _ _ (grantStep_keysOk texts i rep h)
    · exact h

lemma arfaHaemLoop_keysOk (texts : List String) :
    ∀ fuel i rep, reportKeysOk rep = true →
      reportKeysOk (arfaHaemLoop texts fuel i rep).2 = true := by
  intro fuel
  induction fuel with
  | zero => intro i rep h; exact h
  | succ n ih =>
    intro i rep h
    simp only [arfaHaemLoop]
    repeat' split
    all_goals first
      | exact h
      | exact ih _ _ h
      | exact ih _ _ (addBlood_keysOk _ _ (entryHasBaseKeys_mkEntry _ _ _ _) h)
      | exact ih _ _ (addHaem_keysOk _ _ (entryHasBaseKeys_mkEntry _ _ _ _) h)

set_option maxHeartbeats 1000000 in
lemma arfaStep_keysOk (texts : List String) (i : Nat) (rep : Report)
    (h : reportKeysOk rep = true) : reportKeysOk (arfaStep texts i rep).2 = true := by
  unfold arfaStep
  repeat' split
  all_goals first
    | exact h
    | exact arfaHaemLoop_keysOk texts _ _ _ h

lemma arfaLoop_keysOk (texts : List String) :
    ∀ fuel i rep, reportKeysOk rep = true →
      reportKeysOk (arfaLoop texts fuel i rep) = true := by
  intro fuel
  induction fuel with
  | zero => intro i rep h; exact h
  | succ n ih =>
    intro i rep h
    unfold arfaLoop
    split
    · exact ih _ _ (arfaStep_keysOk texts i rep h)
    · exact h

lemma parse_parth_format_keysOk (texts : List String) :
    reportKeysOk (parse_parth_format texts) = true :=
  parthLoop_keysOk texts texts.length 0 Report.empty rfl

lemma parse_grant_format_keysOk (texts : List String) :
    reportKeysOk (parse_grant_format texts) = true :=
  grantLoop_keysOk texts texts.length 0 Report.empty rfl

lemma parse_arfa_format_keysOk (texts : List String) :
    reportKeysOk (parse_arfa_format texts) = true :=
  arfaLoop_keysOk texts texts.length 0 Report.empty rfl

lemma parse_medical_report_keysOk (rec_texts : List String) :
    reportKeysOk (parse_medical_report rec_texts) = true := by
  unfold parse_medical_report
  repeat' split
  all_goals first
    | rfl
    | exact parse_parth_format_keysOk _
    | exact parse_grant_format_keysOk _
    | exact parse_arfa_format_keysOk _
    | exact parse_universal_format_keysOk _

/-- **C8.**  Every Test Result entry appended to `haematology_report`
or `blood_indices` by any parser — the universal parser, the three
fixed-format readers, and the dispatching `parse_medical_report` —
carries all four base keys `test_name`, `observed_value`, `unit`,
`reference_range` (with the empty string, not absence, as the default
for unmatched subfields). -/
theorem C8_all_entries_have_base_keys (texts : List String) :
    reportKeysOk (parse_universal_format texts) = true ∧
    reportKeysOk (parse_parth_format texts) = true ∧
    reportKeysOk (parse_grant_format texts) = true ∧
    reportKeysOk (parse_arfa_format texts) = true ∧
    reportKeysOk (parse_medical_report texts) = true :=
  ⟨parse_universal_format_keysOk texts, parse_parth_format_keysOk texts,
   parse_grant_format_keysOk texts, parse_arfa_format_keysOk texts,
   parse_medical_report_keysOk texts⟩

end Ocr
